import Mathlib

/-!
Shallow embedding of src/server.js: the membership-gated broadcast engine.

Modelling conventions for the JavaScript source:
* JavaScript falsy string positions (undefined / null / empty string) are
  modelled as `Option String` with `none` standing for any falsy value, so
  the idiom a-or-b is Option.orElse.
* Timestamps (new Date().toISOString()) are modelled as Nat supplied by the
  caller; string formatting of the timestamp is irrelevant to every claim.
* Randomness (crypto.randomBytes, Math.random) is externalized: the random
  bytes and the random promo index are parameters.
* The chat transport (bot.telegram) is a function parameter; an operation
  that can throw is an Except value.
* The mutable module-level users array and the users.json file are passed
  as explicit state (ProcState) where a claim needs them.
-/

namespace Server

/-- A stored user record: array element of data/users.json
(telegram_id, username, first_name, last_name, token, last_seen). -/
structure User where
  telegram_id : Int
  username : Option String
  first_name : Option String
  last_name : Option String
  token : String
  last_seen : Nat
deriving DecidableEq, Repr

/-- The ctx.from object of an inbound update: id plus optional display fields. -/
structure TgFrom where
  id : Int
  username : Option String
  first_name : Option String
  last_name : Option String
deriving DecidableEq, Repr

/-- One hex digit character, lowercase, for a nibble value d < 16
(Buffer.toString with encoding hex uses lowercase digits). -/
def hexDigit (d : Nat) : Char :=
  if d < 10 then Char.ofNat (48 + d) else Char.ofNat (87 + d)

/-- Hex encoding of one byte: two lowercase hex digit characters. -/
def byteToHex (b : Nat) : List Char :=
  [hexDigit (b / 16), hexDigit (b % 16)]

/-- crypto.randomBytes(n).toString(hex) applied to the byte list bs:
each byte becomes two lowercase hex digits, concatenated. -/
def genToken (bs : List Nat) : String :=
  String.mk (bs.map byteToHex).flatten

/-- The sixteen characters that can appear in a lowercase hex encoding. -/
def lowercaseHexChars : List Char :=
  String.toList "0123456789abcdef"

/-- users.find by telegram_id === tgId (first match). -/
def findUserById (users : List User) (tgId : Int) : Option User :=
  users.find? (fun u => u.telegram_id == tgId)

/-- In-place mutation of the found record in addOrUpdateUser's else branch:
u.username = from.username || u.username; same for first_name, last_name;
u.last_seen = now. -/
def updateFrom (f : TgFrom) (now : Nat) (u : User) : User :=
  { u with
    username := f.username.orElse (fun _ => u.username)
    first_name := f.first_name.orElse (fun _ => u.first_name)
    last_name := f.last_name.orElse (fun _ => u.last_name)
    last_seen := now }

/-- The JS mutation of the object returned by users.find touches exactly the
first list element with the given telegram_id; this applies g there. -/
def updateFirst (tgId : Int) (g : User → User) : List User → List User
  | [] => []
  | u :: rest =>
    if u.telegram_id == tgId then g u :: rest else u :: updateFirst tgId g rest

/-- The record built for a previously-unseen identity: the if (!u) branch of
addOrUpdateUser. -/
def freshUser (randomBytes : List Nat) (now : Nat) (f : TgFrom) : User :=
  { telegram_id := f.id
    username := f.username
    first_name := f.first_name
    last_name := f.last_name
    token := genToken randomBytes
    last_seen := now }

/-- addOrUpdateUser(from). The save parameter is saveUsers
(fs.writeFileSync, which may throw: Except; the source wraps it in no
try/catch, so a throw propagates out of addOrUpdateUser, which the
Except.map expresses: ok carries the returned record, error the
propagated exception). randomBytes are the ten random bytes of the
token, now the current timestamp. The second component is the users
array after the call; the array is mutated (push / field assignment)
before saveUsers runs, so it is updated even when the save throws. -/
def addOrUpdateUser (save : List User → Except Unit Unit)
    (randomBytes : List Nat) (now : Nat) (f : TgFrom) (users : List User) :
    Except Unit User × List User :=
  match findUserById users f.id with
  | none =>
    let u := freshUser randomBytes now f
    let users2 := users ++ [u]
    ((save users2).map (fun _ => u), users2)
  | some u0 =>
    let u := updateFrom f now u0
    let users2 := updateFirst f.id (updateFrom f now) users
    ((save users2).map (fun _ => u), users2)

/-- Result of one bot.telegram.getChatMember call: a thrown transport error,
or a response whose status field is modelled as Option String (none for a
falsy member object or falsy status, matching member and member.status). -/
inductive ChatMemberResult
  | err
  | res (status : Option String)
deriving DecidableEq, Repr

/-- The JS String.prototype.startsWith test, modelled on the character
lists of the two strings. -/
def jsStartsWith (s pre : String) : Bool :=
  pre.toList.isPrefixOf s.toList

/-- Channel name normalization: ch when it starts with @, else @ prepended. -/
def normCh (ch : String) : String :=
  if jsStartsWith ch "@" then ch else "@" ++ ch

/-- The per-channel acceptance test inside isMemberOfAllChannels:
status left, kicked or falsy (or a thrown getChatMember) fails,
any other present status passes. -/
def channelOk (r : ChatMemberResult) : Bool :=
  match r with
  | .err => false
  | .res none => false
  | .res (some s) => !(s == "left" || s == "kicked")

/-- isMemberOfAllChannels(tgId) over the REQUIRED_CHANNELS list: empty list
returns true; otherwise each channel is resolved via the transport gcm and
the loop returns false on the first failing channel. It always returns a
Bool (the catch inside makes a transport error a false, never a throw). -/
def isMemberOfAllChannels (gcm : String → Int → ChatMemberResult)
    (tgId : Int) : List String → Bool
  | [] => true
  | ch :: rest =>
    if channelOk (gcm (normCh ch) tgId) then
      isMemberOfAllChannels gcm tgId rest
    else false

/-- Same loop, additionally recording the (normalized) channels for which
getChatMember was actually invoked, in invocation order. -/
def isMemberTrace (gcm : String → Int → ChatMemberResult)
    (tgId : Int) : List String → Bool × List String
  | [] => (true, [])
  | ch :: rest =>
    if channelOk (gcm (normCh ch) tgId) then
      let r := isMemberTrace gcm tgId rest
      (r.1, normCh ch :: r.2)
    else (false, [normCh ch])

/-- Transform of a transport that replaces every thrown getChatMember with a
normal response of status left (used to state fail-closed equivalence). -/
def leftify (gcm : String → Int → ChatMemberResult) :
    String → Int → ChatMemberResult :=
  fun ch tgId =>
    match gcm ch tgId with
    | .err => .res (some "left")
    | r => r

/-- Process state visible to the broadcast paths: the module-level users
array and the log of saveUsers calls (each entry one whole-file rewrite). -/
structure ProcState where
  users : List User
  fileWrites : List (List User)
deriving DecidableEq, Repr

/-- HTTP response of POST /admin/broadcast. -/
inductive Response
  | forbidden
  | textRequired
  | okCounts (sent failed : Nat)
deriving DecidableEq, Repr

/-- Did the transport send succeed (no exception)? -/
def isOkSend (r : Except Unit Unit) : Bool :=
  match r with
  | .ok _ => true
  | .error _ => false

/-- The fan-out loop of the admin broadcast: for each user of the snapshot in
order, re-check subscription (skip silently when false), else attempt the
send; success increments sent, a thrown send increments failed, and the loop
continues either way. Also returns the ids for which a send was attempted,
in order. -/
def broadcastLoop (subscribed : Int → Bool) (send : Int → Except Unit Unit) :
    List User → Nat × Nat × List Int
  | [] => (0, 0, [])
  | u :: rest =>
    if subscribed u.telegram_id then
      match send u.telegram_id with
      | .ok _ =>
        let r := broadcastLoop subscribed send rest
        (r.1 + 1, r.2.1, u.telegram_id :: r.2.2)
      | .error _ =>
        let r := broadcastLoop subscribed send rest
        (r.1, r.2.1 + 1, u.telegram_id :: r.2.2)
    else broadcastLoop subscribed send rest

/-- app.post(/admin/broadcast): authorization from the X-Admin-Token header
or the admin_token query parameter (header wins when truthy), then the text
validation, then the fan-out over a snapshot (users.slice()) of the current
users array. Subscription is re-checked per user through
isMemberOfAllChannels (whose catch already yields false). Returns the state
after the request, the HTTP response, and the attempted-send trace. -/
def adminBroadcastS (ADMIN_TOKEN : String) (channels : List String)
    (gcm : String → Int → ChatMemberResult) (send : Int → Except Unit Unit)
    (headerTok queryTok bodyText : Option String) (st : ProcState) :
    ProcState × Response × List Int :=
  let provided := headerTok.orElse (fun _ => queryTok)
  if ADMIN_TOKEN = "" ∨ ¬ provided = some ADMIN_TOKEN then
    (st, .forbidden, [])
  else
    match bodyText with
    | none => (st, .textRequired, [])
    | some _text =>
      let usersCopy := st.users
      let r :=
        broadcastLoop
          (fun tgId => isMemberOfAllChannels gcm tgId channels)
          send usersCopy
      (st, .okCounts r.1 r.2.1, r.2.2)

/-- The promo message pool. -/
def PROMO_MESSAGES : List String :=
  ["🔥 Новая подборка техники — заходи в каталог!",
   "🧥 Скидки на одежду у наших спонсоров — смотри каталог!",
   "⚡ Игра бросает вызов — побей рекорд и получи скидку!"]

/-- The scheduler-path fan-out body: attempts (re-checking subscription per
user) without any counters; send outcomes are only logged. Returns the ids
for which a send was attempted, in order. -/
def promoLoop (subscribed : Int → Bool) (send : Int → Except Unit Unit) :
    List User → List Int
  | [] => []
  | u :: rest =>
    if subscribed u.telegram_id then
      match send u.telegram_id with
      | _ => u.telegram_id :: promoLoop subscribed send rest
    else promoLoop subscribed send rest

/-- One tick of the setInterval promo loop: pick the random pool entry,
iterate a snapshot (users.slice()) of the users array, skip unsubscribed,
send silently, discard the aggregate. Returns the state after the tick and
the attempted-send trace. -/
def promoTickS (channels : List String)
    (gcm : String → Int → ChatMemberResult) (send : Int → Except Unit Unit)
    (randIdx : Nat) (st : ProcState) : ProcState × List Int :=
  let _text := PROMO_MESSAGES.getD (randIdx % PROMO_MESSAGES.length) ""
  (st, promoLoop
    (fun tgId => isMemberOfAllChannels gcm tgId channels)
    send st.users)

/-- A JSON value as it matters to loadUsers: either an array of user records
or any other JSON value (tagged to tell concrete instances apart). -/
inductive JsValue
  | arr (users : List User)
  | nonArray (tag : Nat)
deriving DecidableEq, Repr

/-- loadUsers(): try reading users.json and JSON.parse-ing it, returning the
parsed value unchanged; any exception (unreadable file or parse failure)
yields the empty array. readUsersFile models fs.readFileSync (throwing when
the file is missing or unreadable), parseJson models JSON.parse. -/
def loadUsers (readUsersFile : Except Unit String)
    (parseJson : String → Except Unit JsValue) : JsValue :=
  match readUsersFile with
  | .error _ => .arr []
  | .ok raw =>
    match parseJson raw with
    | .error _ => .arr []
    | .ok v => v

/-! ### Helper lemmas -/

/-- The per-channel test accepts exactly the results carrying a present
status different from left and kicked. -/
lemma channelOk_iff (r : ChatMemberResult) :
    channelOk r = true ↔
      ∃ s, r = .res (some s) ∧ ¬ s = "left" ∧ ¬ s = "kicked" := by
  cases r with
  | err => simp [channelOk]
  | res st =>
    cases st with
    | none => simp [channelOk]
    | some s => simp [channelOk]

/-- Replacing thrown getChatMember calls by status left does not change the
per-channel test. -/
lemma channelOk_leftify (gcm : String → Int → ChatMemberResult)
    (ch : String) (tgId : Int) :
    channelOk (leftify gcm ch tgId) = channelOk (gcm ch tgId) := by
  unfold leftify
  cases h : gcm ch tgId <;> simp [h, channelOk]

/-- The Bool component of the traced membership check is the membership
check itself. -/
lemma isMemberTrace_fst (gcm : String → Int → ChatMemberResult)
    (tgId : Int) (channels : List String) :
    (isMemberTrace gcm tgId channels).1 =
      isMemberOfAllChannels gcm tgId channels := by
  induction channels with
  | nil => rfl
  | cons ch rest ih =>
    by_cases h : channelOk (gcm (normCh ch) tgId) = true <;>
      simp [isMemberTrace, isMemberOfAllChannels, h, ih]

/-- A failing channel placed after all-passing channels stops the traced
loop exactly there. -/
lemma isMemberTrace_stops (gcm : String → Int → ChatMemberResult)
    (tgId : Int) (bad : String) (post : List String)
    (hbad : channelOk (gcm (normCh bad) tgId) = false)
    (pre : List String)
    (hpre : ∀ ch ∈ pre, channelOk (gcm (normCh ch) tgId) = true) :
    isMemberTrace gcm tgId (pre ++ bad :: post) =
      (false, pre.map normCh ++ [normCh bad]) := by
  induction pre with
  | nil => simp [isMemberTrace, hbad]
  | cons c cs ih =>
    have hc := hpre c (List.mem_cons_self c cs)
    have hrest := ih (fun ch h => hpre ch (List.mem_cons_of_mem c h))
    simp [isMemberTrace, hc, hrest]

/-- Updating the first record with a given id through an id-preserving
function maps the record found by id through that function. -/
lemma find?_updateFirst (tgId : Int) (g : User → User)
    (hg : ∀ u : User, (g u).telegram_id = u.telegram_id)
    (users : List User) :
    (updateFirst tgId g users).find? (fun u => u.telegram_id == tgId) =
      (users.find? (fun u => u.telegram_id == tgId)).map g := by
  induction users with
  | nil => rfl
  | cons u rest ih =>
    by_cases h : u.telegram_id = tgId
    · have hb : (u.telegram_id == tgId) = true := by simp [h]
      simp [updateFirst, List.find?, hb, hg]
    · have hb : (u.telegram_id == tgId) = false := by simp [h]
      simp [updateFirst, List.find?, hb, ih]

/-- The fan-out loop produces the subscribed-and-sent count, the
subscribed-and-thrown count, and the in-order attempt trace. -/
lemma broadcastLoop_eq (subscribed : Int → Bool)
    (send : Int → Except Unit Unit) (l : List User) :
    broadcastLoop subscribed send l =
      (l.countP (fun u =>
          subscribed u.telegram_id && isOkSend (send u.telegram_id)),
       l.countP (fun u =>
          subscribed u.telegram_id && !isOkSend (send u.telegram_id)),
       (l.filter (fun u => subscribed u.telegram_id)).map
         (fun u => u.telegram_id)) := by
  induction l with
  | nil => rfl
  | cons u rest ih =>
    by_cases hs : subscribed u.telegram_id = true
    · cases hsend : send u.telegram_id with
      | ok x =>
        simp [broadcastLoop, hs, hsend, ih, List.countP_cons, isOkSend,
          List.filter_cons, Nat.add_comm]
      | error e =>
        simp [broadcastLoop, hs, hsend, ih, List.countP_cons, isOkSend,
          List.filter_cons, Nat.add_comm]
    · simp [broadcastLoop, hs, ih, List.countP_cons, List.filter_cons]

/-- Every lowercase hex digit character of a nibble is in the hex alphabet. -/
lemma hexDigit_mem : ∀ d : Nat, d < 16 → hexDigit d ∈ lowercaseHexChars := by
  decide

/-- Summing a constant 2 over a mapped list. -/
lemma sum_map_two (l : List Nat) : (l.map fun _ => (2 : Nat)).sum = 2 * l.length := by
  induction l with
  | nil => rfl
  | cons b rest ih =>
    simp only [List.map_cons, List.sum_cons, ih, List.length_cons]
    omega

/-- Mapping a constant over an Except: an ok result yields that constant. -/
lemma map_const_ok {α : Type} (e : Except Unit Unit) (a b : α)
    (h : e.map (fun _ => a) = .ok b) : b = a := by
  cases e with
  | ok x => simpa [Except.map] using h.symm
  | error er => simp [Except.map] at h

/-- Mapping a constant over an Except preserves being the thrown case. -/
lemma map_const_error {α : Type} (e : Except Unit Unit) (a : α) :
    e.map (fun _ => a) = .error () ↔ e = .error () := by
  cases e with
  | ok x => simp [Except.map]
  | error er => simp [Except.map]

/-- The users array produced by an upsert, independent of the save. -/
lemma addOrUpdateUser_snd (save : List User → Except Unit Unit)
    (bytes : List Nat) (now : Nat) (f : TgFrom) (users : List User) :
    (addOrUpdateUser save bytes now f users).2 =
      match findUserById users f.id with
      | none => users ++ [freshUser bytes now f]
      | some _ => updateFirst f.id (updateFrom f now) users := by
  unfold addOrUpdateUser
  cases findUserById users f.id <;> rfl

/-! ### Claim theorems -/

/-- Claim C5: any broadcast request with an empty configured admin token, or
a presented token (header, else query) different from the configured one, is
answered 403 forbidden with no send attempted, whatever the body. -/
theorem broadcast_forbidden (AT : String) (channels : List String)
    (gcm : String → Int → ChatMemberResult) (send : Int → Except Unit Unit)
    (ht qt bt : Option String) (st : ProcState)
    (h : AT = "" ∨ ¬ (ht.orElse fun _ => qt) = some AT) :
    adminBroadcastS AT channels gcm send ht qt bt st =
      (st, .forbidden, []) := by
  unfold adminBroadcastS
  rw [if_pos h]

/-- Witness for C5: the empty configured token forbids a request that even
carries a matching (empty-string) query token. -/
theorem broadcast_forbidden_witness :
    adminBroadcastS "" [] (fun _ _ => .err) (fun _ => .ok ())
      none (some "x") (some "hello")
      { users := [], fileWrites := [] } =
      ({ users := [], fileWrites := [] }, .forbidden, []) :=
  broadcast_forbidden "" [] (fun _ _ => .err) (fun _ => .ok ())
    none (some "x") (some "hello") { users := [], fileWrites := [] }
    (Or.inl rfl)

/-- Claim C8: an authorized broadcast request whose body text is missing or
empty (falsy) is answered 400 text required with no send attempted. -/
theorem broadcast_text_required (AT : String) (channels : List String)
    (gcm : String → Int → ChatMemberResult) (send : Int → Except Unit Unit)
    (ht qt : Option String) (st : ProcState)
    (hA : ¬ AT = "") (hp : (ht.orElse fun _ => qt) = some AT) :
    adminBroadcastS AT channels gcm send ht qt none st =
      (st, .textRequired, []) := by
  unfold adminBroadcastS
  rw [if_neg]
  push_neg
  exact ⟨hA, hp⟩

/-- Witness for C8: a concrete authorized request with no text. -/
theorem broadcast_text_required_witness :
    adminBroadcastS "s3cret" [] (fun _ _ => .err) (fun _ => .ok ())
      (some "s3cret") none none
      { users := [], fileWrites := [] } =
      ({ users := [], fileWrites := [] }, .textRequired, []) :=
  broadcast_text_required "s3cret" [] (fun _ _ => .err) (fun _ => .ok ())
    (some "s3cret") none { users := [], fileWrites := [] }
    (by decide) rfl

/-- Claim C9: neither a full admin broadcast pass nor a promo tick changes
the process state: the users array keeps the same records and the file-write
log is untouched (no rewrite of the persisted store). -/
theorem broadcast_pass_frame (AT : String) (channels : List String)
    (gcm : String → Int → ChatMemberResult) (send : Int → Except Unit Unit)
    (ht qt bt : Option String) (ridx : Nat) (st : ProcState) :
    (adminBroadcastS AT channels gcm send ht qt bt st).1 = st ∧
    (promoTickS channels gcm send ridx st).1 = st := by
  constructor
  · unfold adminBroadcastS
    dsimp only
    split
    · rfl
    · cases bt <;> rfl
  · rfl

/-- Claim C1: an authorized broadcast with non-empty text walks the snapshot
in order; a user failing the fresh membership re-check is skipped with no
counter change, a successful send increments sent, a thrown send increments
failed and the pass continues; the response carries exactly the resulting
counts, and the attempt trace is exactly the subscribed users in snapshot
order (no truncation). -/
theorem admin_broadcast_counts (AT : String) (channels : List String)
    (gcm : String → Int → ChatMemberResult) (send : Int → Except Unit Unit)
    (ht qt : Option String) (t : String) (st : ProcState)
    (hA : ¬ AT = "") (hp : (ht.orElse fun _ => qt) = some AT) :
    adminBroadcastS AT channels gcm send ht qt (some t) st =
      (st,
       Response.okCounts
         (st.users.countP (fun u =>
            isMemberOfAllChannels gcm u.telegram_id channels &&
              isOkSend (send u.telegram_id)))
         (st.users.countP (fun u =>
            isMemberOfAllChannels gcm u.telegram_id channels &&
              !isOkSend (send u.telegram_id))),
       (st.users.filter (fun u =>
          isMemberOfAllChannels gcm u.telegram_id channels)).map
         (fun u => u.telegram_id)) := by
  unfold adminBroadcastS
  rw [if_neg (by push_neg; exact ⟨hA, hp⟩)]
  dsimp only
  rw [broadcastLoop_eq]

/-- Witness for C1: two subscribed users, the send throws for the second:
the response is okCounts 1 1 and both users were attempted in order. -/
theorem admin_broadcast_counts_witness :
    adminBroadcastS "s3cret" ["c"]
      (fun _ _ => .res (some "member"))
      (fun i => if i == 2 then .error () else .ok ())
      (some "s3cret") none (some "Sale!")
      { users :=
          [{ telegram_id := 1, username := none, first_name := none,
             last_name := none, token := "ta", last_seen := 0 },
           { telegram_id := 2, username := none, first_name := none,
             last_name := none, token := "tb", last_seen := 0 }],
        fileWrites := [] } =
      ({ users :=
          [{ telegram_id := 1, username := none, first_name := none,
             last_name := none, token := "ta", last_seen := 0 },
           { telegram_id := 2, username := none, first_name := none,
             last_name := none, token := "tb", last_seen := 0 }],
         fileWrites := [] }, .okCounts 1 1, [1, 2]) :=
  (admin_broadcast_counts "s3cret" ["c"]
    (fun _ _ => .res (some "member"))
    (fun i => if i == 2 then .error () else .ok ())
    (some "s3cret") none "Sale!"
    { users :=
        [{ telegram_id := 1, username := none, first_name := none,
           last_name := none, token := "ta", last_seen := 0 },
         { telegram_id := 2, username := none, first_name := none,
           last_name := none, token := "tb", last_seen := 0 }],
      fileWrites := [] }
    (by decide) rfl).trans (by decide)

/-- Counterexample to claim C2 as stated: an unknown non-empty status value
(banana, not one of the four accepted ones) makes the whole check return
true, not false. -/
theorem unknown_status_passes :
    isMemberOfAllChannels (fun _ _ => .res (some "banana")) 7 ["somechannel"]
      = true ∧
    "banana" ∉
      (["member", "creator", "administrator", "restricted"] : List String) :=
  ⟨rfl, by decide⟩

/-- Claim C2 amended: a user counts as a member of every channel exactly when
each channel resolves to a present status different from left and kicked;
an absent status or a transport error fails, but any other present status
value (known or not) passes. Restricted to the platform's known statuses,
the four accepted ones all pass the per-channel test. -/
theorem isMember_status_rule (gcm : String → Int → ChatMemberResult)
    (tgId : Int) (channels : List String) :
    (isMemberOfAllChannels gcm tgId channels = true ↔
      ∀ ch ∈ channels, ∃ s, gcm (normCh ch) tgId = .res (some s) ∧
        ¬ s = "left" ∧ ¬ s = "kicked") ∧
    (∀ s ∈ (["member", "creator", "administrator", "restricted"] :
        List String), channelOk (.res (some s)) = true) := by
  constructor
  · induction channels with
    | nil => simp [isMemberOfAllChannels]
    | cons ch rest ih =>
      cases hok : channelOk (gcm (normCh ch) tgId) with
      | true =>
        have hQ := (channelOk_iff _).mp hok
        simp [isMemberOfAllChannels, hok, ih, List.forall_mem_cons, hQ]
      | false =>
        have hQ : ¬ ∃ s, gcm (normCh ch) tgId = .res (some s) ∧
            ¬ s = "left" ∧ ¬ s = "kicked" := by
          rw [← channelOk_iff, hok]
          simp
        simp [isMemberOfAllChannels, hok, List.forall_mem_cons, hQ]
  · decide

/-- Counterexample to claim C4 as stated: file content that parses as JSON
but is not an array of user records is returned as-is by loadUsers, not
replaced by the empty registry. -/
theorem loadUsers_nonarray_passthrough :
    loadUsers (.ok "42") (fun _ => .ok (.nonArray 42)) = .nonArray 42 ∧
    JsValue.nonArray 42 ≠ .arr [] :=
  ⟨rfl, by decide⟩

/-- Claim C4 amended: a missing or unreadable file, or content on which the
JSON parse throws, loads the empty registry (and startup never fails); but
whenever the parse succeeds its value is returned unvalidated, even when it
is not an array of user records. -/
theorem loadUsers_best_effort :
    (∀ p : String → Except Unit JsValue, loadUsers (.error ()) p = .arr []) ∧
    (∀ (r : Except Unit String) (p : String → Except Unit JsValue),
      loadUsers r p = .arr [] ∨
      ∃ raw v, r = .ok raw ∧ p raw = .ok v ∧ loadUsers r p = v) := by
  constructor
  · intro p
    rfl
  · intro r p
    cases r with
    | error e => exact .inl rfl
    | ok raw =>
      cases hp : p raw with
      | error e =>
        exact .inl (by simp [loadUsers, hp])
      | ok v =>
        exact .inr ⟨raw, v, rfl, hp, by simp [loadUsers, hp]⟩

/-- Claim C7: with every channel before the failing one passing and the
failing one rejected (left, kicked, absent status, or a thrown transport
call, all with channelOk false), the check returns false and the transport
was consulted exactly for the prefix and the failing channel — never for
the channels after it; moreover replacing every thrown transport call by a
left status changes nothing (fail-closed), and the check itself is a total
Bool-valued function (it cannot throw). -/
theorem isMember_short_circuit (gcm : String → Int → ChatMemberResult)
    (tgId : Int) (pre post : List String) (bad : String)
    (hpre : ∀ ch ∈ pre, channelOk (gcm (normCh ch) tgId) = true)
    (hbad : channelOk (gcm (normCh bad) tgId) = false) :
    isMemberTrace gcm tgId (pre ++ bad :: post) =
      (false, pre.map normCh ++ [normCh bad]) ∧
    isMemberOfAllChannels gcm tgId (pre ++ bad :: post) = false ∧
    (∀ chs : List String,
      isMemberOfAllChannels (leftify gcm) tgId chs =
        isMemberOfAllChannels gcm tgId chs) := by
  have h1 := isMemberTrace_stops gcm tgId bad post hbad pre hpre
  refine ⟨h1, ?_, ?_⟩
  · have h2 := isMemberTrace_fst gcm tgId (pre ++ bad :: post)
    rw [h1] at h2
    exact h2.symm
  · intro chs
    induction chs with
    | nil => rfl
    | cons c cs ih => simp [isMemberOfAllChannels, channelOk_leftify, ih]

/-- Witness for C7: channel a passes, channel b errors, channel c follows;
only a and b are consulted and the check is false. -/
theorem isMember_short_circuit_witness :
    ((∀ ch ∈ (["a"] : List String),
        channelOk ((fun ch _ => if ch == "@a" then .res (some "member")
            else ChatMemberResult.err) (normCh ch) (3 : Int)) = true) ∧
      channelOk ((fun ch _ => if ch == "@a" then .res (some "member")
          else ChatMemberResult.err) (normCh "b") (3 : Int)) = false) ∧
    (isMemberTrace
        (fun ch _ => if ch == "@a" then .res (some "member")
          else ChatMemberResult.err) 3 (["a"] ++ "b" :: ["c"]) =
      (false, ["a"].map normCh ++ [normCh "b"]) ∧
    isMemberOfAllChannels
        (fun ch _ => if ch == "@a" then .res (some "member")
          else ChatMemberResult.err) 3 (["a"] ++ "b" :: ["c"]) = false ∧
    (∀ chs : List String,
      isMemberOfAllChannels
          (leftify (fun ch _ => if ch == "@a" then .res (some "member")
            else ChatMemberResult.err)) 3 chs =
        isMemberOfAllChannels
          (fun ch _ => if ch == "@a" then .res (some "member")
            else ChatMemberResult.err) 3 chs)) :=
  ⟨⟨by decide, by decide⟩,
   isMember_short_circuit
     (fun ch _ => if ch == "@a" then .res (some "member")
       else ChatMemberResult.err)
     3 ["a"] ["c"] "b" (by decide) (by decide)⟩

/-- Counterexample to claim C3 as stated: when the store write throws, the
upsert returns the propagated exception instead of the user record —
saveUsers is called with no try/catch around it. -/
theorem upsert_save_failure_throws :
    (addOrUpdateUser (fun _ => .error ()) [1, 2, 3, 4, 5, 6, 7, 8, 9, 10] 5
      { id := 7, username := none, first_name := none, last_name := none }
      []).1 = .error () := rfl

/-- Claim C3 amended: a failed store write is neither caught nor logged
inside the upsert — the exception propagates to the caller (the result is
the thrown error exactly when the save threw); however the in-memory
registry is updated before the write is attempted, so it is the same
whatever the save does, and it contains a record for the upserted identity
with the fresh last_seen (the generated token thus survives in memory). -/
theorem upsert_write_failure_behavior (save save2 : List User → Except Unit Unit)
    (bytes : List Nat) (now : Nat) (f : TgFrom) (users : List User) :
    (addOrUpdateUser save bytes now f users).2 =
      (addOrUpdateUser save2 bytes now f users).2 ∧
    ((addOrUpdateUser save bytes now f users).1 = .error () ↔
      save ((addOrUpdateUser save bytes now f users).2) = .error ()) ∧
    (∃ u ∈ (addOrUpdateUser save bytes now f users).2,
      u.telegram_id = f.id ∧ u.last_seen = now) := by
  refine ⟨?_, ?_, ?_⟩
  · rw [addOrUpdateUser_snd, addOrUpdateUser_snd]
  · cases hf : findUserById users f.id with
    | none =>
      unfold addOrUpdateUser
      rw [hf]
      exact map_const_error _ _
    | some u0 =>
      unfold addOrUpdateUser
      rw [hf]
      exact map_const_error _ _
  · rw [addOrUpdateUser_snd]
    cases hf : findUserById users f.id with
    | none =>
      exact ⟨freshUser bytes now f, by simp, rfl, rfl⟩
    | some u0 =>
      have hfind := find?_updateFirst f.id (updateFrom f now)
        (fun _ => rfl) users
      unfold findUserById at hf
      rw [hf] at hfind
      refine ⟨updateFrom f now u0, List.mem_of_find?_eq_some hfind, ?_, rfl⟩
      have hp := List.find?_some hf
      simpa [updateFrom] using hp

/-- Claim C6: whenever an upsert returns a record and a second upsert for
the same id (on the state the first left behind) returns a record, the two
records carry the same token and the same id, and each call stamps its own
timestamp into last_seen, so last_seen is non-decreasing whenever the clock
is. -/
theorem upsert_token_stable (save1 save2 : List User → Except Unit Unit)
    (bytes1 bytes2 : List Nat) (now1 now2 : Nat) (f f2 : TgFrom)
    (users : List User) (u1 u2 : User)
    (hid : f2.id = f.id)
    (h1 : (addOrUpdateUser save1 bytes1 now1 f users).1 = .ok u1)
    (h2 : (addOrUpdateUser save2 bytes2 now2 f2
        (addOrUpdateUser save1 bytes1 now1 f users).2).1 = .ok u2) :
    u2.token = u1.token ∧ u2.telegram_id = u1.telegram_id ∧
    u1.last_seen = now1 ∧ u2.last_seen = now2 ∧
    (now1 ≤ now2 → u1.last_seen ≤ u2.last_seen) := by
  cases hf : findUserById users f.id with
  | none =>
    have hu1 : u1 = freshUser bytes1 now1 f := by
      unfold addOrUpdateUser at h1
      rw [hf] at h1
      exact map_const_ok _ _ _ h1
    have hstate : (addOrUpdateUser save1 bytes1 now1 f users).2 =
        users ++ [freshUser bytes1 now1 f] := by
      rw [addOrUpdateUser_snd, hf]
    have hfind2 : findUserById (users ++ [freshUser bytes1 now1 f]) f2.id =
        some (freshUser bytes1 now1 f) := by
      unfold findUserById at hf ⊢
      rw [hid, List.find?_append, hf]
      simp [freshUser]
    have hu2 : u2 = updateFrom f2 now2 (freshUser bytes1 now1 f) := by
      rw [hstate] at h2
      unfold addOrUpdateUser at h2
      rw [hfind2] at h2
      exact map_const_ok _ _ _ h2
    subst hu1 hu2
    exact ⟨rfl, rfl, rfl, rfl, fun h => h⟩
  | some u0 =>
    have hu1 : u1 = updateFrom f now1 u0 := by
      unfold addOrUpdateUser at h1
      rw [hf] at h1
      exact map_const_ok _ _ _ h1
    have hstate : (addOrUpdateUser save1 bytes1 now1 f users).2 =
        updateFirst f.id (updateFrom f now1) users := by
      rw [addOrUpdateUser_snd, hf]
    have hfind2 : findUserById (updateFirst f.id (updateFrom f now1) users)
        f2.id = some (updateFrom f now1 u0) := by
      unfold findUserById at hf ⊢
      rw [hid, find?_updateFirst f.id (updateFrom f now1) (fun _ => rfl) users,
        hf]
      rfl
    have hu2 : u2 = updateFrom f2 now2 (updateFrom f now1 u0) := by
      rw [hstate] at h2
      unfold addOrUpdateUser at h2
      rw [hfind2] at h2
      exact map_const_ok _ _ _ h2
    subst hu1 hu2
    exact ⟨rfl, rfl, rfl, rfl, fun h => h⟩

/-- Witness for C6: a fresh identity is inserted at time 5, then upserted
again at time 9 with new display fields and different random bytes; both
calls return records, with equal token and id and the two timestamps. -/
theorem upsert_token_stable_witness :
    ((2 : Int) = 2 ∧
      (addOrUpdateUser (fun _ => .ok ()) [0, 1, 2, 3, 4, 5, 6, 7, 8, 9] 5
        { id := 2, username := some "alice", first_name := none,
          last_name := none } []).1 =
        .ok (freshUser [0, 1, 2, 3, 4, 5, 6, 7, 8, 9] 5
          { id := 2, username := some "alice", first_name := none,
            last_name := none }) ∧
      (addOrUpdateUser (fun _ => .ok ()) [9, 9, 9, 9, 9, 9, 9, 9, 9, 9] 9
        { id := 2, username := none, first_name := some "Alice",
          last_name := none }
        (addOrUpdateUser (fun _ => .ok ()) [0, 1, 2, 3, 4, 5, 6, 7, 8, 9] 5
          { id := 2, username := some "alice", first_name := none,
            last_name := none } []).2).1 =
        .ok (updateFrom
          { id := 2, username := none, first_name := some "Alice",
            last_name := none } 9
          (freshUser [0, 1, 2, 3, 4, 5, 6, 7, 8, 9] 5
            { id := 2, username := some "alice", first_name := none,
              last_name := none }))) ∧
    ((updateFrom
        { id := 2, username := none, first_name := some "Alice",
          last_name := none } 9
        (freshUser [0, 1, 2, 3, 4, 5, 6, 7, 8, 9] 5
          { id := 2, username := some "alice", first_name := none,
            last_name := none })).token =
      (freshUser [0, 1, 2, 3, 4, 5, 6, 7, 8, 9] 5
        { id := 2, username := some "alice", first_name := none,
          last_name := none }).token ∧
    (updateFrom
        { id := 2, username := none, first_name := some "Alice",
          last_name := none } 9
        (freshUser [0, 1, 2, 3, 4, 5, 6, 7, 8, 9] 5
          { id := 2, username := some "alice", first_name := none,
            last_name := none })).telegram_id =
      (freshUser [0, 1, 2, 3, 4, 5, 6, 7, 8, 9] 5
        { id := 2, username := some "alice", first_name := none,
          last_name := none }).telegram_id ∧
    (freshUser [0, 1, 2, 3, 4, 5, 6, 7, 8, 9] 5
      { id := 2, username := some "alice", first_name := none,
        last_name := none }).last_seen = 5 ∧
    (updateFrom
        { id := 2, username := none, first_name := some "Alice",
          last_name := none } 9
        (freshUser [0, 1, 2, 3, 4, 5, 6, 7, 8, 9] 5
          { id := 2, username := some "alice", first_name := none,
            last_name := none })).last_seen = 9 ∧
    (5 ≤ 9 →
      (freshUser [0, 1, 2, 3, 4, 5, 6, 7, 8, 9] 5
        { id := 2, username := some "alice", first_name := none,
          last_name := none }).last_seen ≤
      (updateFrom
          { id := 2, username := none, first_name := some "Alice",
            last_name := none } 9
          (freshUser [0, 1, 2, 3, 4, 5, 6, 7, 8, 9] 5
            { id := 2, username := some "alice", first_name := none,
              last_name := none })).last_seen)) :=
  ⟨⟨rfl, rfl, rfl⟩,
   upsert_token_stable (fun _ => .ok ()) (fun _ => .ok ())
     [0, 1, 2, 3, 4, 5, 6, 7, 8, 9] [9, 9, 9, 9, 9, 9, 9, 9, 9, 9] 5 9
     { id := 2, username := some "alice", first_name := none,
       last_name := none }
     { id := 2, username := none, first_name := some "Alice",
       last_name := none }
     [] _ _ rfl rfl rfl⟩

/-- Claim C10: for a previously-unseen identity, the upsert appends a record
whose token is the hex encoding of the ten supplied random bytes: a
20-character string over the lowercase hex alphabet. -/
theorem first_upsert_token_format (save : List User → Except Unit Unit)
    (bytes : List Nat) (now : Nat) (f : TgFrom) (users : List User)
    (habs : findUserById users f.id = none)
    (hlen : bytes.length = 10)
    (hrange : ∀ b ∈ bytes, b < 256) :
    (addOrUpdateUser save bytes now f users).2 =
      users ++ [freshUser bytes now f] ∧
    (freshUser bytes now f).token = genToken bytes ∧
    (genToken bytes).length = 20 ∧
    ∀ c ∈ (genToken bytes).toList, c ∈ lowercaseHexChars := by
  refine ⟨by rw [addOrUpdateUser_snd, habs], rfl, ?_, ?_⟩
  · have h0 : (genToken bytes).length =
        ((bytes.map byteToHex).flatten).length := rfl
    rw [h0, List.length_flatten, List.map_map]
    have h1 : (List.length ∘ byteToHex) = fun _ : Nat => (2 : Nat) :=
      funext (fun _ => rfl)
    rw [h1, sum_map_two, hlen]
  · intro c hc
    have hc2 : c ∈ (bytes.map byteToHex).flatten := hc
    rw [List.mem_flatten] at hc2
    obtain ⟨l, hl, hcl⟩ := hc2
    rw [List.mem_map] at hl
    obtain ⟨b, hb, rfl⟩ := hl
    have hb256 := hrange b hb
    have hcl2 : c = hexDigit (b / 16) ∨ c = hexDigit (b % 16) := by
      simpa [byteToHex] using hcl
    rcases hcl2 with rfl | rfl
    · exact hexDigit_mem _ (by omega)
    · exact hexDigit_mem _ (by omega)

/-- Witness for C10: ten concrete bytes for a fresh identity yield the
expected 20-character lowercase hex token. -/
theorem first_upsert_token_format_witness :
    (findUserById [] (7 : Int) = none ∧
      ([0, 17, 34, 51, 68, 85, 102, 119, 136, 255] : List Nat).length = 10 ∧
      ∀ b ∈ ([0, 17, 34, 51, 68, 85, 102, 119, 136, 255] : List Nat),
        b < 256) ∧
    ((addOrUpdateUser (fun _ => .ok ())
        [0, 17, 34, 51, 68, 85, 102, 119, 136, 255] 5
        { id := 7, username := none, first_name := none, last_name := none }
        []).2 =
      [] ++ [freshUser [0, 17, 34, 51, 68, 85, 102, 119, 136, 255] 5
        { id := 7, username := none, first_name := none,
          last_name := none }] ∧
    (freshUser [0, 17, 34, 51, 68, 85, 102, 119, 136, 255] 5
      { id := 7, username := none, first_name := none,
        last_name := none }).token =
      genToken [0, 17, 34, 51, 68, 85, 102, 119, 136, 255] ∧
    (genToken [0, 17, 34, 51, 68, 85, 102, 119, 136, 255]).length = 20 ∧
    ∀ c ∈ (genToken [0, 17, 34, 51, 68, 85, 102, 119, 136, 255]).toList,
      c ∈ lowercaseHexChars) :=
  ⟨⟨rfl, rfl, by decide⟩,
   first_upsert_token_format (fun _ => .ok ())
     [0, 17, 34, 51, 68, 85, 102, 119, 136, 255] 5
     { id := 7, username := none, first_name := none, last_name := none }
     [] rfl rfl (by decide)⟩

end Server
